import Mathlib

/-!
Verification of the browser-session-recorder core engines, shallowly embedded
from the JavaScript source.  Coordinates and durations are modelled as exact
rationals (JS numbers); randomness is injected as explicit parameters (the
RNG draws) so every path generator becomes a pure function of its inputs.

The two embedded components are:
* the Motion Synthesis operations of `src/mouseUtils.js`
  (`easeInOutCubic`, `moveMouse`, `swiftMoveTo`, `traceElementOutline`) and the
  clamped ShyMouse replay loop of `src/index-focused.js` (`moveToElement`);
* the Adaptive Prioritization engine of `src/iterativeRefinement.js`
  (`getPriority`, `categorizeElements`, `recordInteraction`,
  `getWeightedRandomElement`).
-/

namespace MouseUtils

/-- Embedding of `easeInOutCubic` from src/mouseUtils.js line 8:
`t < 0.5 ? 4 * t * t * t : 1 - Math.pow(-2 * t + 2, 3) / 2`. -/
def easeInOutCubic (t : ℚ) : ℚ :=
  if t < 1/2 then 4 * t * t * t else 1 - (-2 * t + 2) ^ 3 / 2

/-- The coordinate emitted at loop index `i` of the `moveMouse` loop
(src/mouseUtils.js lines 42-52): eased progress fed into the quadratic
Bézier with control point `(fromX + curveX, fromY + curveY)`. -/
def moveMouseStep (fromX fromY toX toY curveX curveY : ℚ) (steps i : ℕ) :
    ℚ × ℚ :=
  let progress : ℚ := (i : ℚ) / (steps : ℚ)
  let t := easeInOutCubic progress
  let t1 := 1 - t
  (t1 * t1 * fromX + 2 * t1 * t * (fromX + curveX) + t * t * toX,
   t1 * t1 * fromY + 2 * t1 * t * (fromY + curveY) + t * t * toY)

/-- Embedding of `moveMouse` from src/mouseUtils.js lines 36-58, as the ordered list of
coordinates it surfaces to `page.mouse.move` (the loop runs `i = 0..steps`).
The RNG draws `curveX`, `curveY` (the control-point offset, drawn as
`(Math.random() - 0.5) * random(50, 150)`) are passed in explicitly. -/
def moveMouse (fromX fromY toX toY : ℚ) (steps : ℕ) (curveX curveY : ℚ) :
    List (ℚ × ℚ) :=
  (List.range (steps + 1)).map
    (moveMouseStep fromX fromY toX toY curveX curveY steps)

/-- Step count of `swiftMoveTo` (src/mouseUtils.js line 195):
`Math.max(20, Math.min(40, Math.floor(distance / 15)))`, taking the Euclidean
distance between start and target (passed as a parameter because its square
root is not rational). -/
def swiftSteps (distance : ℚ) : ℕ :=
  max 20 (min 40 ⌊distance / 15⌋₊)

/-- Embedding of `swiftMoveTo` from src/mouseUtils.js lines 193-215: the same Bézier loop
as `moveMouse`, with the step count derived from the distance and a smaller
curve intensity (draws again passed explicitly). -/
def swiftMoveTo (fromX fromY toX toY distance curveX curveY : ℚ) :
    List (ℚ × ℚ) :=
  (List.range (swiftSteps distance + 1)).map
    (moveMouseStep fromX fromY toX toY curveX curveY (swiftSteps distance))

/-- One point of the top edge of `traceElementOutline`
(src/mouseUtils.js lines 87-90): `for (let i = 0; i <= width; i += speed)`
emits `(x + i, y)`; the loop runs for `i = j * speed`, `j = 0 .. ⌊width/speed⌋`. -/
def outlineTopEdge (x y width speed : ℚ) : List (ℚ × ℚ) :=
  (List.range (⌊width / speed⌋₊ + 1)).map fun j : ℕ => (x + (j : ℚ) * speed, y)

/-- Right edge of `traceElementOutline` (src/mouseUtils.js lines 93-96):
`for (let i = 0; i <= height; i += speed)` emits `(x + width, y + i)`. -/
def outlineRightEdge (x y width height speed : ℚ) : List (ℚ × ℚ) :=
  (List.range (⌊height / speed⌋₊ + 1)).map fun j : ℕ =>
    (x + width, y + (j : ℚ) * speed)

/-- Bottom edge of `traceElementOutline` (src/mouseUtils.js lines 99-102):
`for (let i = width; i >= 0; i -= speed)` emits `(x + i, y + height)`;
`i = width - j * speed` stays nonnegative for `j = 0 .. ⌊width/speed⌋`. -/
def outlineBottomEdge (x y width height speed : ℚ) : List (ℚ × ℚ) :=
  (List.range (⌊width / speed⌋₊ + 1)).map fun j : ℕ =>
    (x + (width - (j : ℚ) * speed), y + height)

/-- Left edge of `traceElementOutline` (src/mouseUtils.js lines 105-108):
`for (let i = height; i >= 0; i -= speed)` emits `(x, y + i)`. -/
def outlineLeftEdge (x y height speed : ℚ) : List (ℚ × ℚ) :=
  (List.range (⌊height / speed⌋₊ + 1)).map fun j : ℕ =>
    (x, y + (height - (j : ℚ) * speed))

/-- Embedding of `traceElementOutline` from src/mouseUtils.js lines 79-109: the ordered
list of coordinates surfaced while walking the four edges of the bounding
box `{x, y, width, height}` in order top → right → bottom → left at fixed
increments of `speed`. -/
def traceElementOutline (x y width height speed : ℚ) : List (ℚ × ℚ) :=
  outlineTopEdge x y width speed ++
  outlineRightEdge x y width height speed ++
  outlineBottomEdge x y width height speed ++
  outlineLeftEdge x y height speed

end MouseUtils

namespace IndexFocused

/-- The clamping applied by `moveToElement` in src/index-focused.js lines
138-140 before each point of the Bézier path is surfaced:
`safeX = Math.max(0, Math.min(viewport.width - 1, point.x || 0))` and the
analogue on `y`. -/
def safePoint (viewportWidth viewportHeight : ℚ) (p : ℚ × ℚ) : ℚ × ℚ :=
  (max 0 (min (viewportWidth - 1) p.1), max 0 (min (viewportHeight - 1) p.2))

end IndexFocused

namespace IterativeRefinement

/-- The priority tiers returned by `getPriority`
(src/iterativeRefinement.js lines 52-77). -/
inductive Priority where
  | high
  | medium
  | low
  | skip
deriving DecidableEq, Repr

/-- Embedding of `getPriority(selectorKey, selectors)` from src/iterativeRefinement.js
lines 52-77.  The `selectors` argument is accepted (with an arbitrary type,
as in the untyped source) and, as in the source, never read: the decision
uses only the three hardcoded membership lists. -/
def getPriority {S : Type} (selectorKey : String) (selectors : S) : Priority :=
  let highPriority :=
    ["chartLabels", "leaderTitle", "recommendationTexts", "recommendationItems"]
  let mediumPriority := ["chartSegments", "chartCircles", "avatar", "badges"]
  let skipList := ["container", "dividers"]
  if selectorKey ∈ skipList then Priority.skip
  else if selectorKey ∈ highPriority then Priority.high
  else if selectorKey ∈ mediumPriority then Priority.medium
  else Priority.low

/-- The record pushed onto a tier list by `categorizeElements`
(src/iterativeRefinement.js line 29): `{ element, type: key, priority }`. -/
structure Item (α : Type) where
  element : α
  type : String
  priority : Priority
deriving DecidableEq, Repr

/-- The value built by `categorizeElements`: the three tier lists together
with the keys of `this.elementStats` (the types that own a stats entry)
after the call. -/
structure CategorizedResult (α : Type) where
  high : List (Item α)
  medium : List (Item α)
  low : List (Item α)
  statsKeys : List String
deriving Repr

/-- The body of the `elementList.forEach` callback in `categorizeElements`
(src/iterativeRefinement.js lines 28-43): push the item onto its tier's
list, then lazily create a stats entry for the key. -/
def addItem {α : Type} (key : String) (priority : Priority)
    (acc : CategorizedResult α) (e : α) : CategorizedResult α :=
  let item : Item α := ⟨e, key, priority⟩
  let acc' :=
    if priority = Priority.high then { acc with high := acc.high ++ [item] }
    else if priority = Priority.medium then
      { acc with medium := acc.medium ++ [item] }
    else { acc with low := acc.low ++ [item] }
  if key ∈ acc'.statsKeys then acc'
  else { acc' with statsKeys := acc'.statsKeys ++ [key] }

/-- One iteration of the outer `for (const [key, elementList] of
Object.entries(elements))` loop (src/iterativeRefinement.js lines 22-44):
computes the entry's priority once and skips the whole entry when it is
`skip`. -/
def addEntry {α S : Type} (selectors : S) (acc : CategorizedResult α)
    (kl : String × List α) : CategorizedResult α :=
  let priority := getPriority kl.1 selectors
  if priority = Priority.skip then acc
  else kl.2.foldl (addItem kl.1 priority) acc

/-- Embedding of `categorizeElements(elements, selectors)` from src/iterativeRefinement.js
lines 15-47.  `elements` is the entry list of the element map; `stats0` is
the set of keys already present in `this.elementStats` before the call. -/
def categorizeElements {α S : Type} (elements : List (String × List α))
    (selectors : S) (stats0 : List String) : CategorizedResult α :=
  elements.foldl (addEntry selectors) ⟨[], [], [], stats0⟩

/-- One per-type stats record (src/iterativeRefinement.js lines 37-41):
`{ interactions: 0, avgHoverTime: 0, traced: 0 }` at creation. -/
structure Stats where
  interactions : ℕ
  avgHoverTime : ℚ
  traced : ℕ
deriving DecidableEq, Repr

/-- The stats update of `recordInteraction` (src/iterativeRefinement.js
lines 90-101) for a type that has a stats entry: `interactions` is
incremented first, and when `duration > 0` the running mean is recomputed
as `(avg * (interactions - 1) + duration) / interactions` with the
already-incremented count. -/
def recordInteraction (s : Stats) (duration : ℚ) (action : String) : Stats :=
  let n := s.interactions + 1
  { interactions := n
    avgHoverTime :=
      if duration > 0 then
        (s.avgHoverTime * ((n : ℚ) - 1) + duration) / (n : ℚ)
      else s.avgHoverTime
    traced := if action = "trace" then s.traced + 1 else s.traced }

/-- A sequence of `recordInteraction` calls for one type (all with the
default `hover` action), applied in order to its stats entry. -/
def recordAll (s : Stats) (durations : List ℚ) : Stats :=
  durations.foldl (fun acc d => recordInteraction acc d "hover") s

/-- The `weights` object of `getWeightedRandomElement`
(src/iterativeRefinement.js lines 108-112). -/
structure Weights where
  high : ℕ
  medium : ℕ
  low : ℕ
deriving DecidableEq, Repr

/-- The tier weight triple used by `getWeightedRandomElement`
(src/iterativeRefinement.js lines 108-127): `{50, 30, 20}` initially,
reassigned to `{60, 25, 15}` when `totalInteractions > 10` and then to
`{70, 20, 10}` when `totalInteractions > 20`. -/
def weightsFor (totalInteractions : ℕ) : Weights :=
  let w : Weights := ⟨50, 30, 20⟩
  let w := if totalInteractions > 10 then (⟨60, 25, 15⟩ : Weights) else w
  let w := if totalInteractions > 20 then (⟨70, 20, 10⟩ : Weights) else w
  w

/-- Embedding of `items[Math.floor(Math.random() * items.length)]` (src/iterativeRefinement.js
lines 136 and 146) with the uniform draw `r ∈ [0,1)` passed explicitly;
indexing an empty array yields `undefined`, modelled as `none`. -/
def pickFrom {α : Type} (items : List α) (r : ℚ) : Option α :=
  items.get? ⌊r * (items.length : ℚ)⌋₊

/-- Embedding of `getWeightedRandomElement(categorized)` from src/iterativeRefinement.js
lines 107-147.  `totalInteractions` is `this.interactions.length`; `r1` is
the draw `Math.random() * 100`; `r2` is the uniform `[0,1)` draw of the one
array-indexing that happens.  The loop walks the weights in insertion order
(high, medium, low) accumulating `cumulative`, and returns from the first
tier with `rand <= cumulative && categorized[priority].length > 0`; if no
tier fires it falls back to a flat pick over the concatenation of the three
tiers. -/
def getWeightedRandomElement {α : Type} (c : CategorizedResult α)
    (totalInteractions : ℕ) (r1 r2 : ℚ) : Option (Item α) :=
  let w := weightsFor totalInteractions
  let cum1 : ℚ := (w.high : ℚ)
  if r1 ≤ cum1 ∧ 0 < c.high.length then pickFrom c.high r2
  else
    let cum2 : ℚ := cum1 + (w.medium : ℚ)
    if r1 ≤ cum2 ∧ 0 < c.medium.length then pickFrom c.medium r2
    else
      let cum3 : ℚ := cum2 + (w.low : ℚ)
      if r1 ≤ cum3 ∧ 0 < c.low.length then pickFrom c.low r2
      else pickFrom (c.high ++ c.medium ++ c.low) r2

/-- Modelled from the spec (section 4.2 `selectWeighted`): the draw picks
the first tier whose cumulative bound it reaches, and "if the chosen tier
is empty, the draw has no further fallback within that exact walk"; the
only recovery is "a flat uniform pick across all non-empty tiers combined"
(the union of all tiers).  This is the behaviour claim C6 ascribes to the
code, written down for comparison with `getWeightedRandomElement`. -/
def specSelectWeighted {α : Type} (c : CategorizedResult α)
    (totalInteractions : ℕ) (r1 r2 : ℚ) : Option (Item α) :=
  let w := weightsFor totalInteractions
  let fallback := pickFrom (c.high ++ c.medium ++ c.low) r2
  if r1 ≤ (w.high : ℚ) then
    if 0 < c.high.length then pickFrom c.high r2 else fallback
  else if r1 ≤ (w.high : ℚ) + (w.medium : ℚ) then
    if 0 < c.medium.length then pickFrom c.medium r2 else fallback
  else if r1 ≤ (w.high : ℚ) + (w.medium : ℚ) + (w.low : ℚ) then
    if 0 < c.low.length then pickFrom c.low r2 else fallback
  else fallback

end IterativeRefinement

/-- The last coordinate emitted by a `for (i = 0; i <= n; i++)` loop is the
one at `i = n`. -/
theorem getLast?_range_succ_map {α : Type} (f : ℕ → α) (n : ℕ) :
    ((List.range (n + 1)).map f).getLast? = some (f n) := by
  rw [List.range_succ, List.map_append]
  simp

namespace MouseUtils

/-- At `i = steps` (with at least one step) the Bézier loop emits exactly the
target point: eased progress is `1`, so the `t²` term is all that remains. -/
theorem moveMouseStep_at_steps (fromX fromY toX toY curveX curveY : ℚ)
    (steps : ℕ) (h : 1 ≤ steps) :
    moveMouseStep fromX fromY toX toY curveX curveY steps steps =
      (toX, toY) := by
  have hs : ((steps : ℚ)) ≠ 0 := by
    exact_mod_cast Nat.ne_of_gt (by omega)
  have he : easeInOutCubic 1 = 1 := by norm_num [easeInOutCubic]
  simp only [moveMouseStep, div_self hs, he]
  norm_num

end MouseUtils

/-- Claim C8: the easing function `t < 0.5 ? 4t³ : 1-(-2t+2)³/2` is
monotonically non-decreasing on `[0,1]` and satisfies `ease(0) = 0`,
`ease(0.5) = 0.5` and `ease(1) = 1`. -/
theorem C8_easeInOutCubic_monotone (s t : ℚ)
    (h0 : 0 ≤ s) (hst : s ≤ t) (h1 : t ≤ 1) :
    MouseUtils.easeInOutCubic 0 = 0 ∧
    MouseUtils.easeInOutCubic (1/2) = 1/2 ∧
    MouseUtils.easeInOutCubic 1 = 1 ∧
    MouseUtils.easeInOutCubic s ≤ MouseUtils.easeInOutCubic t := by
  refine ⟨by norm_num [MouseUtils.easeInOutCubic],
    by norm_num [MouseUtils.easeInOutCubic],
    by norm_num [MouseUtils.easeInOutCubic], ?_⟩
  unfold MouseUtils.easeInOutCubic
  split_ifs with hs ht ht
  · -- both in the first branch
    nlinarith [sq_nonneg (s + t), sq_nonneg (s - t), mul_nonneg h0 h0]
  · -- s below the midpoint, t at or above it
    push_neg at ht
    have hcube : (-2 * t + 2) ^ 3 ≤ 1 :=
      pow_le_one₀ (by linarith) (by linarith)
    nlinarith [mul_nonneg h0 h0]
  · -- impossible: s ≥ 1/2 and t < 1/2 while s ≤ t
    exact absurd (lt_of_le_of_lt hst ht) hs
  · -- both in the second branch
    push_neg at hs
    have hle : (-2 * t + 2) ^ 3 ≤ (-2 * s + 2) ^ 3 := by
      have := pow_le_pow_left₀ (by linarith : (0:ℚ) ≤ -2 * t + 2)
        (by linarith : -2 * t + 2 ≤ -2 * s + 2) 3
      exact this
    linarith

/-- Witness for C8 at `s = 1/4`, `t = 3/4`. -/
theorem C8_easeInOutCubic_monotone_witness :
    MouseUtils.easeInOutCubic 0 = 0 ∧
    MouseUtils.easeInOutCubic (1/2) = 1/2 ∧
    MouseUtils.easeInOutCubic 1 = 1 ∧
    MouseUtils.easeInOutCubic (1/4) ≤ MouseUtils.easeInOutCubic (3/4) :=
  C8_easeInOutCubic_monotone (1/4) (3/4) (by norm_num) (by norm_num)
    (by norm_num)

/-- Claim C2: the tier weight triple used by `getWeightedRandomElement` is
`{50, 30, 20}` for at most 10 recorded interactions, `{60, 25, 15}` for 11
to 20, and `{70, 20, 10}` above 20; in particular at counts 0, 11, 21 it is
`{50,30,20}`, `{60,25,15}`, `{70,20,10}` respectively. -/
theorem C2_weightsFor_policy (n : ℕ) :
    (n ≤ 10 → IterativeRefinement.weightsFor n = ⟨50, 30, 20⟩) ∧
    (10 < n → n ≤ 20 → IterativeRefinement.weightsFor n = ⟨60, 25, 15⟩) ∧
    (20 < n → IterativeRefinement.weightsFor n = ⟨70, 20, 10⟩) ∧
    IterativeRefinement.weightsFor 0 = ⟨50, 30, 20⟩ ∧
    IterativeRefinement.weightsFor 11 = ⟨60, 25, 15⟩ ∧
    IterativeRefinement.weightsFor 21 = ⟨70, 20, 10⟩ := by
  refine ⟨?_, ?_, ?_, by decide, by decide, by decide⟩ <;>
    intros <;> simp only [IterativeRefinement.weightsFor] <;>
    split_ifs <;> first | rfl | omega

/-- Witness for C2 at interaction counts 5, 15 and 25. -/
theorem C2_weightsFor_policy_witness :
    IterativeRefinement.weightsFor 5 = ⟨50, 30, 20⟩ ∧
    IterativeRefinement.weightsFor 15 = ⟨60, 25, 15⟩ ∧
    IterativeRefinement.weightsFor 25 = ⟨70, 20, 10⟩ :=
  ⟨(C2_weightsFor_policy 5).1 (by norm_num),
   (C2_weightsFor_policy 15).2.1 (by norm_num) (by norm_num),
   (C2_weightsFor_policy 25).2.2.1 (by norm_num)⟩

/-- Claim C4: for the `approach` (`moveMouse`) and `swift` (`swiftMoveTo`)
motion kinds, for all start and target points, every step count ≥ 1 and
every control-point offset draw, the final emitted coordinate equals the
requested target exactly (the rational embedding is exact, so this holds
with zero rounding error). -/
theorem C4_endpoint_convergence
    (fromX fromY toX toY curveX curveY distance : ℚ) (steps : ℕ)
    (h : 1 ≤ steps) :
    (MouseUtils.moveMouse fromX fromY toX toY steps curveX curveY).getLast? =
      some (toX, toY) ∧
    (MouseUtils.swiftMoveTo fromX fromY toX toY distance curveX
        curveY).getLast? = some (toX, toY) := by
  constructor
  · rw [MouseUtils.moveMouse, getLast?_range_succ_map,
      MouseUtils.moveMouseStep_at_steps fromX fromY toX toY curveX curveY
        steps h]
  · rw [MouseUtils.swiftMoveTo, getLast?_range_succ_map,
      MouseUtils.moveMouseStep_at_steps fromX fromY toX toY curveX curveY
        (MouseUtils.swiftSteps distance)
        (le_trans (by norm_num) (le_max_left 20 _))]

/-- Witness for C4: a concrete approach of 2 steps and a swift move,
from `(0, 0)` to `(7, 5)` with control offset `(3, 4)`. -/
theorem C4_endpoint_convergence_witness :
    (1 : ℕ) ≤ 2 ∧
    ((MouseUtils.moveMouse 0 0 7 5 2 3 4).getLast? = some (7, 5) ∧
     (MouseUtils.swiftMoveTo 0 0 7 5 100 3 4).getLast? = some (7, 5)) :=
  ⟨by norm_num, C4_endpoint_convergence 0 0 7 5 3 4 100 2 (by norm_num)⟩

/-- Claim C7: on a categorized set whose three tiers are all empty,
weighted selection returns no candidate (`none`, the embedding of the
`undefined` the source returns without throwing), for every interaction
count and every pair of random draws. -/
theorem C7_empty_selection (α : Type) (statsKeys : List String) (n : ℕ)
    (r1 r2 : ℚ) :
    IterativeRefinement.getWeightedRandomElement
      (⟨[], [], [], statsKeys⟩ : IterativeRefinement.CategorizedResult α)
      n r1 r2 = none := by
  simp [IterativeRefinement.getWeightedRandomElement,
    IterativeRefinement.pickFrom]

namespace IterativeRefinement

/-- Running invariant of the stats update: over a run of positive-duration
hover recordings, the interaction count grows by the number of calls and
`avgHoverTime * interactions` accumulates the sum of the durations. -/
theorem recordAll_invariant (ds : List ℚ) (s : Stats)
    (hpos : ∀ d ∈ ds, 0 < d) :
    (recordAll s ds).interactions = s.interactions + ds.length ∧
    (recordAll s ds).avgHoverTime * ((s.interactions + ds.length : ℕ) : ℚ) =
      s.avgHoverTime * (s.interactions : ℚ) + ds.sum := by
  induction ds generalizing s with
  | nil => simp [recordAll]
  | cons d ds ih =>
    have hd : 0 < d := hpos d (List.mem_cons_self d ds)
    have hrest : ∀ d' ∈ ds, 0 < d' := fun d' h' => hpos d' (List.mem_cons_of_mem d h')
    have hstep : recordAll s (d :: ds) =
        recordAll (recordInteraction s d "hover") ds := rfl
    set s' := recordInteraction s d "hover" with hs'
    have hn : s'.interactions = s.interactions + 1 := rfl
    have hcast : ((s.interactions + 1 : ℕ) : ℚ) ≠ 0 := by
      exact_mod_cast Nat.succ_ne_zero s.interactions
    have havg : s'.avgHoverTime * ((s.interactions + 1 : ℕ) : ℚ) =
        s.avgHoverTime * (s.interactions : ℚ) + d := by
      have : s'.avgHoverTime =
          (s.avgHoverTime * (((s.interactions + 1 : ℕ) : ℚ) - 1) + d) /
            ((s.interactions + 1 : ℕ) : ℚ) := by
        simp [hs', recordInteraction, hd]
      rw [this, div_mul_cancel₀ _ hcast]
      push_cast
      ring
    obtain ⟨ih1, ih2⟩ := ih s' hrest
    refine ⟨by rw [hstep, ih1, hn]; simp [List.length_cons]; omega, ?_⟩
    rw [hstep]
    have hlen : s.interactions + (d :: ds).length = s'.interactions + ds.length := by
      rw [hn]; simp; omega
    rw [hlen, ih2, hn]
    rw [show ((s.interactions + 1 : ℕ) : ℚ) = ((s.interactions : ℚ) + 1) by push_cast; ring] at havg
    push_cast at havg ⊢
    rw [List.sum_cons]
    linarith

end IterativeRefinement

/-- Counterexample to claim C3: recording a zero-duration interaction and
then a 1000 ms hover for a type with a fresh stats entry stores an average
of 500, whereas the arithmetic mean over the calls with `durationMs > 0`
is 1000 — the incremental divisor is the total interaction count, which
also counts zero-duration calls. -/
theorem C3_running_mean_counterexample :
    (IterativeRefinement.recordAll ⟨0, 0, 0⟩ [0, 1000]).avgHoverTime = 500 ∧
    ([(0 : ℚ), 1000].filter (fun d => decide (0 < d))).sum /
      (([(0 : ℚ), 1000].filter (fun d => decide (0 < d))).length : ℚ) = 1000 ∧
    (500 : ℚ) ≠ 1000 := by
  refine ⟨?_, by norm_num, by norm_num⟩
  norm_num [IterativeRefinement.recordAll, IterativeRefinement.recordInteraction]

/-- Claim C3 (amended): the stats update divides by the total interaction
count of the type (zero-duration calls included), so `avgHoverTime` equals
the arithmetic mean of the recorded durations whenever every recorded call
has `durationMs > 0`; in particular after `[1000, 2000, 3000]` it is 2000. -/
theorem C3_running_mean_amended (ds : List ℚ) (hpos : ∀ d ∈ ds, 0 < d)
    (hne : ds ≠ []) :
    (IterativeRefinement.recordAll ⟨0, 0, 0⟩ ds).avgHoverTime =
      ds.sum / (ds.length : ℚ) ∧
    (IterativeRefinement.recordAll ⟨0, 0, 0⟩
        [1000, 2000, 3000]).avgHoverTime = 2000 := by
  constructor
  · have h := (IterativeRefinement.recordAll_invariant ds ⟨0, 0, 0⟩ hpos).2
    have hlen : ((ds.length : ℕ) : ℚ) ≠ 0 := by
      have : ds.length ≠ 0 := by
        simpa [List.length_eq_zero] using hne
      exact_mod_cast this
    simp only [Nat.zero_add] at h
    rw [eq_div_iff hlen]
    simpa using h
  · norm_num [IterativeRefinement.recordAll,
      IterativeRefinement.recordInteraction]

/-- Witness for C3 (amended) at the durations `[1000, 2000, 3000]`. -/
theorem C3_running_mean_amended_witness :
    (IterativeRefinement.recordAll ⟨0, 0, 0⟩
        [1000, 2000, 3000]).avgHoverTime =
      ([(1000 : ℚ), 2000, 3000].sum / (([(1000 : ℚ), 2000, 3000].length : ℕ) : ℚ)) ∧
    (IterativeRefinement.recordAll ⟨0, 0, 0⟩
        [1000, 2000, 3000]).avgHoverTime = 2000 :=
  C3_running_mean_amended [1000, 2000, 3000]
    (by intro d hd; simp at hd; rcases hd with h | h | h <;> norm_num [h])
    (by simp)

/-- Counterexample to claim C9: for the box at `(0,0)` with width 4,
height 5 and speed 2, the left-edge loop `for (i = height; i >= 0; i -= speed)`
stops at `i = 1`, so the final emitted coordinate is `(0, 1)`, not the
starting corner `(0, 0)` — the trace closes only when `speed` divides
`height`. -/
theorem C9_outline_closure_counterexample :
    (MouseUtils.traceElementOutline 0 0 4 5 2).getLast? = some (0, 1) ∧
    ((0 : ℚ), (1 : ℚ)) ≠ ((0 : ℚ), (0 : ℚ)) := by
  constructor
  · have h2 : ⌊(5 : ℚ) / 2⌋₊ = 2 := by
      rw [Nat.floor_eq_iff (by norm_num)]
      norm_num
    rw [MouseUtils.traceElementOutline, List.getLast?_append,
      MouseUtils.outlineLeftEdge, h2, getLast?_range_succ_map]
    norm_num
  · simp

/-- Claim C9 (amended): the outline trace walks the four edges in order
top → right → bottom → left at increments of `speed` and visits all four
corners of the box, but its final emitted coordinate is
`(x, y + (height - ⌊height/speed⌋·speed))` — the starting corner exactly
when `speed` divides `height`, and a point strictly above the bottom-left
start of the descent otherwise. -/
theorem C9_outline_corners_amended (x y width height speed : ℚ)
    (hw : 0 < width) (hh : 0 < height) (hs : 0 < speed) :
    ((x, y) ∈ MouseUtils.traceElementOutline x y width height speed ∧
     (x + width, y) ∈ MouseUtils.traceElementOutline x y width height speed ∧
     (x + width, y + height) ∈
       MouseUtils.traceElementOutline x y width height speed ∧
     (x, y + height) ∈ MouseUtils.traceElementOutline x y width height speed) ∧
    (MouseUtils.traceElementOutline x y width height speed).getLast? =
      some (x, y + (height - (⌊height / speed⌋₊ : ℚ) * speed)) ∧
    ((⌊height / speed⌋₊ : ℚ) * speed = height →
      (MouseUtils.traceElementOutline x y width height speed).getLast? =
        some (x, y)) := by
  have hzero : ∀ n : ℕ, (0 : ℕ) ∈ List.range (n + 1) :=
    fun n => List.mem_range.mpr (Nat.succ_pos n)
  have htop : (x, y) ∈ MouseUtils.outlineTopEdge x y width speed :=
    List.mem_map.mpr ⟨0, hzero _, by norm_num⟩
  have hright : (x + width, y) ∈
      MouseUtils.outlineRightEdge x y width height speed :=
    List.mem_map.mpr ⟨0, hzero _, by norm_num⟩
  have hbottom : (x + width, y + height) ∈
      MouseUtils.outlineBottomEdge x y width height speed :=
    List.mem_map.mpr ⟨0, hzero _, by norm_num⟩
  have hleft : (x, y + height) ∈ MouseUtils.outlineLeftEdge x y height speed :=
    List.mem_map.mpr ⟨0, hzero _, by norm_num⟩
  have hlast : (MouseUtils.traceElementOutline x y width height speed).getLast? =
      some (x, y + (height - (⌊height / speed⌋₊ : ℚ) * speed)) := by
    rw [MouseUtils.traceElementOutline, List.getLast?_append,
      MouseUtils.outlineLeftEdge, getLast?_range_succ_map]
    rfl
  refine ⟨⟨?_, ?_, ?_, ?_⟩, hlast, ?_⟩
  · exact List.mem_append_left _ (List.mem_append_left _
      (List.mem_append_left _ htop))
  · exact List.mem_append_left _ (List.mem_append_left _
      (List.mem_append_right _ hright))
  · exact List.mem_append_left _ (List.mem_append_right _ hbottom)
  · exact List.mem_append_right _ hleft
  · intro hdvd
    rw [hlast, hdvd]
    norm_num

/-- Witness for C9 (amended): the box at `(0, 0)` with width 4, height 6 and
speed 2 (where the divisibility condition holds). -/
theorem C9_outline_corners_amended_witness :
    (((0 : ℚ), (0 : ℚ)) ∈ MouseUtils.traceElementOutline 0 0 4 6 2 ∧
     ((4 : ℚ), (0 : ℚ)) ∈ MouseUtils.traceElementOutline 0 0 4 6 2 ∧
     ((4 : ℚ), (6 : ℚ)) ∈ MouseUtils.traceElementOutline 0 0 4 6 2 ∧
     ((0 : ℚ), (6 : ℚ)) ∈ MouseUtils.traceElementOutline 0 0 4 6 2) ∧
    (MouseUtils.traceElementOutline 0 0 4 6 2).getLast? =
      some (0, 6 - (⌊(6 : ℚ) / 2⌋₊ : ℚ) * 2) ∧
    ((⌊(6 : ℚ) / 2⌋₊ : ℚ) * 2 = 6 →
      (MouseUtils.traceElementOutline 0 0 4 6 2).getLast? = some (0, 0)) := by
  have h := C9_outline_corners_amended 0 0 4 6 2 (by norm_num) (by norm_num)
    (by norm_num)
  refine ⟨⟨by simpa using h.1.1, by simpa using h.1.2.1,
    by simpa using h.1.2.2.1, by simpa using h.1.2.2.2⟩,
    by rw [h.2.1]; norm_num, fun hdvd => by simpa using h.2.2 hdvd⟩

/-- Counterexample to claim C1: the `approach` generator `moveMouse`
surfaces its coordinates to `page.mouse.move` without any clamping.  With
start = target = `(10, 10)`, 2 steps, and the legal control-point draw
`curveX = (0 - 0.5) * 140 = -70` (`Math.random() = 0`, intensity
`140 ∈ [50, 150]`), the midpoint of the path is `(-25, 10)`, which lies
outside `[0, dimension-1]` on the x axis for every viewport dimension. -/
theorem C1_no_clamping_counterexample :
    ((-25 : ℚ), (10 : ℚ)) ∈ MouseUtils.moveMouse 10 10 10 10 2 (-70) 0 ∧
    ((-70 : ℚ) = (0 - 1/2) * 140 ∧ (50 : ℚ) ≤ 140 ∧ (140 : ℚ) ≤ 150) ∧
    ¬ (0 ≤ (-25 : ℚ)) := by
  refine ⟨?_, by norm_num, by norm_num⟩
  norm_num [MouseUtils.moveMouse, MouseUtils.moveMouseStep,
    MouseUtils.easeInOutCubic, List.range_succ]

/-- Claim C1 (amended): the `mouseUtils.js` generators surface raw
coordinates; clamping happens only in the ShyMouse replay loop
`moveToElement` of `index-focused.js`, whose
`max(0, min(dimension-1, ·))` guard does keep every surfaced coordinate
within `[0, dimension-1]` on both axes whenever both viewport dimensions
are at least 1. -/
theorem C1_safePoint_clamped (viewportWidth viewportHeight px py : ℚ)
    (hw : 1 ≤ viewportWidth) (hh : 1 ≤ viewportHeight) :
    0 ≤ (IndexFocused.safePoint viewportWidth viewportHeight (px, py)).1 ∧
    (IndexFocused.safePoint viewportWidth viewportHeight (px, py)).1 ≤
      viewportWidth - 1 ∧
    0 ≤ (IndexFocused.safePoint viewportWidth viewportHeight (px, py)).2 ∧
    (IndexFocused.safePoint viewportWidth viewportHeight (px, py)).2 ≤
      viewportHeight - 1 := by
  refine ⟨le_max_left 0 _, max_le (by linarith) (min_le_left _ _),
    le_max_left 0 _, max_le (by linarith) (min_le_left _ _)⟩

/-- Witness for C1 (amended): the out-of-range point `(-25, 10)` of the C1
counterexample is clamped into a 1280×720 viewport. -/
theorem C1_safePoint_clamped_witness :
    0 ≤ (IndexFocused.safePoint 1280 720 (-25, 10)).1 ∧
    (IndexFocused.safePoint 1280 720 (-25, 10)).1 ≤ 1280 - 1 ∧
    0 ≤ (IndexFocused.safePoint 1280 720 (-25, 10)).2 ∧
    (IndexFocused.safePoint 1280 720 (-25, 10)).2 ≤ 720 - 1 :=
  C1_safePoint_clamped 1280 720 (-25) 10 (by norm_num) (by norm_num)

/-- Claim C10: `getPriority` is independent of its `selectors` argument —
for any two values of any two types the result is identical — and the tier
is decided purely by the hardcoded lists: `container` and `dividers` map to
`skip`, the four high-list keys to `high`, the four medium-list keys to
`medium`, and every key outside the ten listed ones to `low`. -/
theorem C10_getPriority_independent :
    (∀ (S1 S2 : Type) (key : String) (s1 : S1) (s2 : S2),
      IterativeRefinement.getPriority key s1 =
        IterativeRefinement.getPriority key s2) ∧
    (∀ (S : Type) (s : S),
      IterativeRefinement.getPriority "container" s =
          IterativeRefinement.Priority.skip ∧
      IterativeRefinement.getPriority "dividers" s =
          IterativeRefinement.Priority.skip ∧
      IterativeRefinement.getPriority "chartLabels" s =
          IterativeRefinement.Priority.high ∧
      IterativeRefinement.getPriority "leaderTitle" s =
          IterativeRefinement.Priority.high ∧
      IterativeRefinement.getPriority "recommendationTexts" s =
          IterativeRefinement.Priority.high ∧
      IterativeRefinement.getPriority "recommendationItems" s =
          IterativeRefinement.Priority.high ∧
      IterativeRefinement.getPriority "chartSegments" s =
          IterativeRefinement.Priority.medium ∧
      IterativeRefinement.getPriority "chartCircles" s =
          IterativeRefinement.Priority.medium ∧
      IterativeRefinement.getPriority "avatar" s =
          IterativeRefinement.Priority.medium ∧
      IterativeRefinement.getPriority "badges" s =
          IterativeRefinement.Priority.medium) ∧
    (∀ (S : Type) (key : String) (s : S),
      key ∉ ["container", "dividers", "chartLabels", "leaderTitle",
        "recommendationTexts", "recommendationItems", "chartSegments",
        "chartCircles", "avatar", "badges"] →
      IterativeRefinement.getPriority key s =
        IterativeRefinement.Priority.low) := by
  refine ⟨fun S1 S2 key s1 s2 => rfl,
    fun S s => ⟨rfl, rfl, rfl, rfl, rfl, rfl, rfl, rfl, rfl, rfl⟩, ?_⟩
  intro S key s h
  simp only [List.mem_cons, List.not_mem_nil, or_false, not_or] at h
  obtain ⟨h1, h2, h3, h4, h5, h6, h7, h8, h9, h10⟩ := h
  simp [IterativeRefinement.getPriority, h1, h2, h3, h4, h5, h6, h7, h8,
    h9, h10]

/-- Witness for C10: the unlisted key `scoreRings` defaults to the `low`
tier (with a concrete `selectors` value). -/
theorem C10_getPriority_independent_witness :
    IterativeRefinement.getPriority "scoreRings" (0 : ℕ) =
      IterativeRefinement.Priority.low :=
  C10_getPriority_independent.2.2 ℕ "scoreRings" 0 (by decide)

namespace IterativeRefinement

/-- A uniform `[0,1)` draw indexes a non-empty array in bounds, so the
`items[Math.floor(Math.random() * items.length)]` pick yields a member of
the array. -/
theorem pickFrom_mem {α : Type} (items : List α) (r : ℚ)
    (hlen : 0 < items.length) (hr0 : 0 ≤ r) (hr1 : r < 1) :
    ∃ a, pickFrom items r = some a ∧ a ∈ items := by
  have hlt : ⌊r * (items.length : ℚ)⌋₊ < items.length := by
    rw [Nat.floor_lt (mul_nonneg hr0 (by positivity))]
    calc r * (items.length : ℚ) < 1 * (items.length : ℚ) := by
          exact mul_lt_mul_of_pos_right hr1 (by exact_mod_cast hlen)
      _ = (items.length : ℚ) := one_mul _
  refine ⟨items.get ⟨⌊r * (items.length : ℚ)⌋₊, hlt⟩, ?_, List.get_mem _ _ _⟩
  rw [pickFrom, List.get?_eq_get hlt]

end IterativeRefinement

/-- Counterexample to claim C6: with an empty high tier, one medium item
and one low item, at interaction count 0 and draw `rand = 10` the
cumulative walk first reaches the (empty) high tier — yet the loop keeps
walking and returns the medium item within the same walk, whereas the
claim's "flat uniform fallback over the union of all tiers" would return
the low item for the index draw `0.6` (`⌊0.6·2⌋ = 1` picks the second
union element). -/
theorem C6_walk_counterexample :
    IterativeRefinement.getWeightedRandomElement
      (⟨[], [⟨7, "m", IterativeRefinement.Priority.medium⟩],
        [⟨8, "l", IterativeRefinement.Priority.low⟩], []⟩ :
        IterativeRefinement.CategorizedResult ℕ) 0 10 (6/10) =
      some ⟨7, "m", IterativeRefinement.Priority.medium⟩ ∧
    IterativeRefinement.specSelectWeighted
      (⟨[], [⟨7, "m", IterativeRefinement.Priority.medium⟩],
        [⟨8, "l", IterativeRefinement.Priority.low⟩], []⟩ :
        IterativeRefinement.CategorizedResult ℕ) 0 10 (6/10) =
      some ⟨8, "l", IterativeRefinement.Priority.low⟩ ∧
    (⟨7, "m", IterativeRefinement.Priority.medium⟩ :
        IterativeRefinement.Item ℕ) ≠
      ⟨8, "l", IterativeRefinement.Priority.low⟩ := by
  have hfl1 : ⌊(6 : ℚ) / 10 * (1 : ℚ)⌋₊ = 0 := by
    rw [Nat.floor_eq_iff (by norm_num)]
    norm_num
  have hfl2 : ⌊(6 : ℚ) / 5⌋₊ = 1 := by
    rw [Nat.floor_eq_iff (by norm_num)]
    norm_num
  refine ⟨?_, ?_, by decide⟩
  · rw [IterativeRefinement.getWeightedRandomElement]
    norm_num [IterativeRefinement.weightsFor, IterativeRefinement.pickFrom, hfl1]
  · rw [IterativeRefinement.specSelectWeighted]
    norm_num [IterativeRefinement.weightsFor, IterativeRefinement.pickFrom, hfl2]

/-- Claim C6 (amended): a full case analysis of the weighted-selection
walk.  The cumulative bounds only grow along the walk, so a draw that
reaches a tier also reaches every later tier; the walk returns a member of
the first tier (in order high, medium, low) that is non-empty and whose
cumulative bound covers the draw — an empty chosen tier does not stop the
walk — and the flat fallback over the union of all tiers runs exactly when
every tier fails the combined bound-and-non-empty test. -/
theorem C6_walk_amended (α : Type)
    (c : IterativeRefinement.CategorizedResult α) (n : ℕ) (r1 r2 : ℚ)
    (hr20 : 0 ≤ r2) (hr21 : r2 < 1) :
    (((IterativeRefinement.weightsFor n).high : ℚ) ≤
        ((IterativeRefinement.weightsFor n).high : ℚ) +
          ((IterativeRefinement.weightsFor n).medium : ℚ) ∧
      ((IterativeRefinement.weightsFor n).high : ℚ) +
          ((IterativeRefinement.weightsFor n).medium : ℚ) ≤
        ((IterativeRefinement.weightsFor n).high : ℚ) +
          ((IterativeRefinement.weightsFor n).medium : ℚ) +
          ((IterativeRefinement.weightsFor n).low : ℚ)) ∧
    (r1 ≤ ((IterativeRefinement.weightsFor n).high : ℚ) →
      0 < c.high.length →
      ∃ it, IterativeRefinement.getWeightedRandomElement c n r1 r2 =
          some it ∧ it ∈ c.high) ∧
    (¬(r1 ≤ ((IterativeRefinement.weightsFor n).high : ℚ) ∧
        0 < c.high.length) →
      r1 ≤ ((IterativeRefinement.weightsFor n).high : ℚ) +
        ((IterativeRefinement.weightsFor n).medium : ℚ) →
      0 < c.medium.length →
      ∃ it, IterativeRefinement.getWeightedRandomElement c n r1 r2 =
          some it ∧ it ∈ c.medium) ∧
    (¬(r1 ≤ ((IterativeRefinement.weightsFor n).high : ℚ) ∧
        0 < c.high.length) →
      ¬(r1 ≤ ((IterativeRefinement.weightsFor n).high : ℚ) +
          ((IterativeRefinement.weightsFor n).medium : ℚ) ∧
        0 < c.medium.length) →
      r1 ≤ ((IterativeRefinement.weightsFor n).high : ℚ) +
        ((IterativeRefinement.weightsFor n).medium : ℚ) +
        ((IterativeRefinement.weightsFor n).low : ℚ) →
      0 < c.low.length →
      ∃ it, IterativeRefinement.getWeightedRandomElement c n r1 r2 =
          some it ∧ it ∈ c.low) ∧
    (¬(r1 ≤ ((IterativeRefinement.weightsFor n).high : ℚ) ∧
        0 < c.high.length) →
      ¬(r1 ≤ ((IterativeRefinement.weightsFor n).high : ℚ) +
          ((IterativeRefinement.weightsFor n).medium : ℚ) ∧
        0 < c.medium.length) →
      ¬(r1 ≤ ((IterativeRefinement.weightsFor n).high : ℚ) +
          ((IterativeRefinement.weightsFor n).medium : ℚ) +
          ((IterativeRefinement.weightsFor n).low : ℚ) ∧
        0 < c.low.length) →
      IterativeRefinement.getWeightedRandomElement c n r1 r2 =
        IterativeRefinement.pickFrom (c.high ++ c.medium ++ c.low) r2) := by
  refine ⟨⟨le_add_of_nonneg_right (by positivity),
    le_add_of_nonneg_right (by positivity)⟩, ?_, ?_, ?_, ?_⟩
  · intro h1 h2
    obtain ⟨a, ha, hamem⟩ := IterativeRefinement.pickFrom_mem c.high r2 h2
      hr20 hr21
    refine ⟨a, ?_, hamem⟩
    rw [IterativeRefinement.getWeightedRandomElement, if_pos ⟨h1, h2⟩]
    exact ha
  · intro hnot1 h1 h2
    obtain ⟨a, ha, hamem⟩ := IterativeRefinement.pickFrom_mem c.medium r2 h2
      hr20 hr21
    refine ⟨a, ?_, hamem⟩
    rw [IterativeRefinement.getWeightedRandomElement, if_neg hnot1,
      if_pos ⟨h1, h2⟩]
    exact ha
  · intro hnot1 hnot2 h1 h2
    obtain ⟨a, ha, hamem⟩ := IterativeRefinement.pickFrom_mem c.low r2 h2
      hr20 hr21
    refine ⟨a, ?_, hamem⟩
    rw [IterativeRefinement.getWeightedRandomElement, if_neg hnot1,
      if_neg hnot2, if_pos ⟨h1, h2⟩]
    exact ha
  · intro hnot1 hnot2 hnot3
    rw [IterativeRefinement.getWeightedRandomElement, if_neg hnot1,
      if_neg hnot2, if_neg hnot3]

/-- Witness for C6 (amended): at interaction count 0 and draw `rand = 10`,
an empty high tier with one medium element yields that medium element
(second case), and empty high and medium tiers with one low element yield
that low element (third case). -/
theorem C6_walk_amended_witness :
    (∃ it, IterativeRefinement.getWeightedRandomElement
      (⟨[], [⟨5, "m", IterativeRefinement.Priority.medium⟩], [], []⟩ :
        IterativeRefinement.CategorizedResult ℕ) 0 10 0 = some it ∧
      it ∈ [(⟨5, "m", IterativeRefinement.Priority.medium⟩ :
        IterativeRefinement.Item ℕ)]) ∧
    (∃ it, IterativeRefinement.getWeightedRandomElement
      (⟨[], [], [⟨6, "l", IterativeRefinement.Priority.low⟩], []⟩ :
        IterativeRefinement.CategorizedResult ℕ) 0 10 0 = some it ∧
      it ∈ [(⟨6, "l", IterativeRefinement.Priority.low⟩ :
        IterativeRefinement.Item ℕ)]) :=
  ⟨(C6_walk_amended ℕ
      ⟨[], [⟨5, "m", IterativeRefinement.Priority.medium⟩], [], []⟩ 0 10 0
      (by norm_num) (by norm_num)).2.2.1
    (by simp) (by norm_num [IterativeRefinement.weightsFor]) (by norm_num),
   (C6_walk_amended ℕ
      ⟨[], [], [⟨6, "l", IterativeRefinement.Priority.low⟩], []⟩ 0 10 0
      (by norm_num) (by norm_num)).2.2.2.1
    (by simp) (by simp) (by norm_num [IterativeRefinement.weightsFor])
    (by norm_num)⟩

namespace IterativeRefinement

/-- Membership in the high tier after one `forEach` body run. -/
theorem addItem_mem_high {α : Type} (key : String) (p : Priority)
    (acc : CategorizedResult α) (e : α) (it : Item α) :
    it ∈ (addItem key p acc e).high ↔
      it ∈ acc.high ∨ (p = Priority.high ∧ it = ⟨e, key, p⟩) := by
  cases p <;>
    simp [addItem, apply_ite CategorizedResult.high, List.mem_append]

/-- Membership in the medium tier after one `forEach` body run. -/
theorem addItem_mem_medium {α : Type} (key : String) (p : Priority)
    (acc : CategorizedResult α) (e : α) (it : Item α) :
    it ∈ (addItem key p acc e).medium ↔
      it ∈ acc.medium ∨ (p = Priority.medium ∧ it = ⟨e, key, p⟩) := by
  cases p <;>
    simp [addItem, apply_ite CategorizedResult.medium, List.mem_append]

/-- Membership in the low tier after one `forEach` body run: the final
`else` catches every priority other than `high` and `medium`. -/
theorem addItem_mem_low {α : Type} (key : String) (p : Priority)
    (acc : CategorizedResult α) (e : α) (it : Item α) :
    it ∈ (addItem key p acc e).low ↔
      it ∈ acc.low ∨
        (p ≠ Priority.high ∧ p ≠ Priority.medium ∧ it = ⟨e, key, p⟩) := by
  cases p <;>
    simp [addItem, apply_ite CategorizedResult.low, List.mem_append]

/-- Membership in the stats-key set after one `forEach` body run: the run
adds (at most once) exactly the entry's key. -/
theorem addItem_mem_statsKeys {α : Type} (key : String) (p : Priority)
    (acc : CategorizedResult α) (e : α) (k : String) :
    k ∈ (addItem key p acc e).statsKeys ↔ k ∈ acc.statsKeys ∨ k = key := by
  have hbody : ∀ acc' : CategorizedResult α,
      acc'.statsKeys = acc.statsKeys →
      (k ∈ (if key ∈ acc'.statsKeys then acc'
            else { acc' with statsKeys := acc'.statsKeys ++ [key] }).statsKeys ↔
        k ∈ acc.statsKeys ∨ k = key) := by
    intro acc' h
    split_ifs with hk
    · rw [h] at hk ⊢
      exact ⟨Or.inl, fun hor => hor.elim id fun he => he ▸ hk⟩
    · simp [h, List.mem_append]
  cases p <;> exact hbody _ rfl

/-- Membership in the high tier after the whole `forEach` loop of one
entry. -/
theorem foldl_addItem_mem_high {α : Type} (key : String) (p : Priority)
    (l : List α) (acc : CategorizedResult α) (it : Item α) :
    it ∈ (l.foldl (addItem key p) acc).high ↔
      it ∈ acc.high ∨ (p = Priority.high ∧ ∃ e ∈ l, it = ⟨e, key, p⟩) := by
  induction l generalizing acc with
  | nil => simp
  | cons e l ih =>
    rw [List.foldl_cons, ih, addItem_mem_high]
    simp only [List.mem_cons]
    constructor
    · rintro ((h | ⟨hp, he⟩) | ⟨hp, e', he', heq⟩)
      · exact Or.inl h
      · exact Or.inr ⟨hp, e, Or.inl rfl, he⟩
      · exact Or.inr ⟨hp, e', Or.inr he', heq⟩
    · rintro (h | ⟨hp, e', (he' | he'), heq⟩)
      · exact Or.inl (Or.inl h)
      · exact Or.inl (Or.inr ⟨hp, he' ▸ heq⟩)
      · exact Or.inr ⟨hp, e', he', heq⟩

/-- Membership in the medium tier after the whole `forEach` loop of one
entry. -/
theorem foldl_addItem_mem_medium {α : Type} (key : String) (p : Priority)
    (l : List α) (acc : CategorizedResult α) (it : Item α) :
    it ∈ (l.foldl (addItem key p) acc).medium ↔
      it ∈ acc.medium ∨ (p = Priority.medium ∧ ∃ e ∈ l, it = ⟨e, key, p⟩) := by
  induction l generalizing acc with
  | nil => simp
  | cons e l ih =>
    rw [List.foldl_cons, ih, addItem_mem_medium]
    simp only [List.mem_cons]
    constructor
    · rintro ((h | ⟨hp, he⟩) | ⟨hp, e', he', heq⟩)
      · exact Or.inl h
      · exact Or.inr ⟨hp, e, Or.inl rfl, he⟩
      · exact Or.inr ⟨hp, e', Or.inr he', heq⟩
    · rintro (h | ⟨hp, e', (he' | he'), heq⟩)
      · exact Or.inl (Or.inl h)
      · exact Or.inl (Or.inr ⟨hp, he' ▸ heq⟩)
      · exact Or.inr ⟨hp, e', he', heq⟩

/-- Membership in the low tier after the whole `forEach` loop of one
entry. -/
theorem foldl_addItem_mem_low {α : Type} (key : String) (p : Priority)
    (l : List α) (acc : CategorizedResult α) (it : Item α) :
    it ∈ (l.foldl (addItem key p) acc).low ↔
      it ∈ acc.low ∨
        (p ≠ Priority.high ∧ p ≠ Priority.medium ∧ ∃ e ∈ l, it = ⟨e, key, p⟩) := by
  induction l generalizing acc with
  | nil => simp
  | cons e l ih =>
    rw [List.foldl_cons, ih, addItem_mem_low]
    simp only [List.mem_cons]
    constructor
    · rintro ((h | ⟨hp1, hp2, he⟩) | ⟨hp1, hp2, e', he', heq⟩)
      · exact Or.inl h
      · exact Or.inr ⟨hp1, hp2, e, Or.inl rfl, he⟩
      · exact Or.inr ⟨hp1, hp2, e', Or.inr he', heq⟩
    · rintro (h | ⟨hp1, hp2, e', (he' | he'), heq⟩)
      · exact Or.inl (Or.inl h)
      · exact Or.inl (Or.inr ⟨hp1, hp2, he' ▸ heq⟩)
      · exact Or.inr ⟨hp1, hp2, e', he', heq⟩

/-- The stats keys after the whole `forEach` loop of one entry: the entry's
key is added exactly when the entry has at least one element. -/
theorem foldl_addItem_mem_statsKeys {α : Type} (key : String) (p : Priority)
    (l : List α) (acc : CategorizedResult α) (k : String) :
    k ∈ (l.foldl (addItem key p) acc).statsKeys ↔
      k ∈ acc.statsKeys ∨ (k = key ∧ l ≠ []) := by
  induction l generalizing acc with
  | nil => simp
  | cons e l ih =>
    rw [List.foldl_cons, ih, addItem_mem_statsKeys]
    constructor
    · rintro ((h | h) | ⟨h, _⟩)
      · exact Or.inl h
      · exact Or.inr ⟨h, List.cons_ne_nil e l⟩
      · exact Or.inr ⟨h, List.cons_ne_nil e l⟩
    · rintro (h | ⟨h, _⟩)
      · exact Or.inl (Or.inl h)
      · exact Or.inl (Or.inr h)

/-- Membership in the high tier after one outer-loop iteration: the entry
contributes exactly when its key's priority is `high`. -/
theorem addEntry_mem_high {α S : Type} (selectors : S)
    (acc : CategorizedResult α) (kl : String × List α) (it : Item α) :
    it ∈ (addEntry selectors acc kl).high ↔
      it ∈ acc.high ∨ (getPriority kl.1 selectors = Priority.high ∧
        ∃ e ∈ kl.2, it = ⟨e, kl.1, Priority.high⟩) := by
  rw [addEntry]
  by_cases hp : getPriority kl.1 selectors = Priority.skip
  · simp [hp]
  · rw [if_neg hp, foldl_addItem_mem_high]
    by_cases hh : getPriority kl.1 selectors = Priority.high
    · simp [hh]
    · simp [hh]

/-- Membership in the medium tier after one outer-loop iteration. -/
theorem addEntry_mem_medium {α S : Type} (selectors : S)
    (acc : CategorizedResult α) (kl : String × List α) (it : Item α) :
    it ∈ (addEntry selectors acc kl).medium ↔
      it ∈ acc.medium ∨ (getPriority kl.1 selectors = Priority.medium ∧
        ∃ e ∈ kl.2, it = ⟨e, kl.1, Priority.medium⟩) := by
  rw [addEntry]
  by_cases hp : getPriority kl.1 selectors = Priority.skip
  · simp [hp]
  · rw [if_neg hp, foldl_addItem_mem_medium]
    by_cases hh : getPriority kl.1 selectors = Priority.medium
    · simp [hh]
    · simp [hh]

/-- Membership in the low tier after one outer-loop iteration: because the
`skip` case returns before the `forEach`, only `low`-priority entries reach
the final `else`. -/
theorem addEntry_mem_low {α S : Type} (selectors : S)
    (acc : CategorizedResult α) (kl : String × List α) (it : Item α) :
    it ∈ (addEntry selectors acc kl).low ↔
      it ∈ acc.low ∨ (getPriority kl.1 selectors = Priority.low ∧
        ∃ e ∈ kl.2, it = ⟨e, kl.1, Priority.low⟩) := by
  rw [addEntry]
  rcases hp : getPriority kl.1 selectors with _ | _ | _ | _ <;>
    simp [hp, foldl_addItem_mem_low]

/-- The stats keys after one outer-loop iteration: the entry's key gains a
stats entry exactly when it is not `skip`-classified and its element list
is non-empty. -/
theorem addEntry_mem_statsKeys {α S : Type} (selectors : S)
    (acc : CategorizedResult α) (kl : String × List α) (k : String) :
    k ∈ (addEntry selectors acc kl).statsKeys ↔
      k ∈ acc.statsKeys ∨ (getPriority kl.1 selectors ≠ Priority.skip ∧
        k = kl.1 ∧ kl.2 ≠ []) := by
  rw [addEntry]
  by_cases hp : getPriority kl.1 selectors = Priority.skip
  · simp [hp]
  · rw [if_neg hp, foldl_addItem_mem_statsKeys]
    simp [hp, and_assoc]

/-- Membership in the high tier of a full categorization run. -/
theorem categorize_mem_high {α S : Type} (elements : List (String × List α))
    (selectors : S) (acc : CategorizedResult α) (it : Item α) :
    it ∈ (elements.foldl (addEntry selectors) acc).high ↔
      it ∈ acc.high ∨ ∃ kl ∈ elements,
        getPriority kl.1 selectors = Priority.high ∧
        ∃ e ∈ kl.2, it = ⟨e, kl.1, Priority.high⟩ := by
  induction elements generalizing acc with
  | nil => simp
  | cons kl els ih =>
    rw [List.foldl_cons, ih, addEntry_mem_high]
    simp only [List.mem_cons]
    constructor
    · rintro ((h | h) | ⟨kl', hkl', h⟩)
      · exact Or.inl h
      · exact Or.inr ⟨kl, Or.inl rfl, h⟩
      · exact Or.inr ⟨kl', Or.inr hkl', h⟩
    · rintro (h | ⟨kl', (hkl' | hkl'), h⟩)
      · exact Or.inl (Or.inl h)
      · exact Or.inl (Or.inr (hkl' ▸ h))
      · exact Or.inr ⟨kl', hkl', h⟩

/-- Membership in the medium tier of a full categorization run. -/
theorem categorize_mem_medium {α S : Type} (elements : List (String × List α))
    (selectors : S) (acc : CategorizedResult α) (it : Item α) :
    it ∈ (elements.foldl (addEntry selectors) acc).medium ↔
      it ∈ acc.medium ∨ ∃ kl ∈ elements,
        getPriority kl.1 selectors = Priority.medium ∧
        ∃ e ∈ kl.2, it = ⟨e, kl.1, Priority.medium⟩ := by
  induction elements generalizing acc with
  | nil => simp
  | cons kl els ih =>
    rw [List.foldl_cons, ih, addEntry_mem_medium]
    simp only [List.mem_cons]
    constructor
    · rintro ((h | h) | ⟨kl', hkl', h⟩)
      · exact Or.inl h
      · exact Or.inr ⟨kl, Or.inl rfl, h⟩
      · exact Or.inr ⟨kl', Or.inr hkl', h⟩
    · rintro (h | ⟨kl', (hkl' | hkl'), h⟩)
      · exact Or.inl (Or.inl h)
      · exact Or.inl (Or.inr (hkl' ▸ h))
      · exact Or.inr ⟨kl', hkl', h⟩

/-- Membership in the low tier of a full categorization run. -/
theorem categorize_mem_low {α S : Type} (elements : List (String × List α))
    (selectors : S) (acc : CategorizedResult α) (it : Item α) :
    it ∈ (elements.foldl (addEntry selectors) acc).low ↔
      it ∈ acc.low ∨ ∃ kl ∈ elements,
        getPriority kl.1 selectors = Priority.low ∧
        ∃ e ∈ kl.2, it = ⟨e, kl.1, Priority.low⟩ := by
  induction elements generalizing acc with
  | nil => simp
  | cons kl els ih =>
    rw [List.foldl_cons, ih, addEntry_mem_low]
    simp only [List.mem_cons]
    constructor
    · rintro ((h | h) | ⟨kl', hkl', h⟩)
      · exact Or.inl h
      · exact Or.inr ⟨kl, Or.inl rfl, h⟩
      · exact Or.inr ⟨kl', Or.inr hkl', h⟩
    · rintro (h | ⟨kl', (hkl' | hkl'), h⟩)
      · exact Or.inl (Or.inl h)
      · exact Or.inl (Or.inr (hkl' ▸ h))
      · exact Or.inr ⟨kl', hkl', h⟩

/-- The stats keys of a full categorization run. -/
theorem categorize_mem_statsKeys {α S : Type}
    (elements : List (String × List α)) (selectors : S)
    (acc : CategorizedResult α) (k : String) :
    k ∈ (elements.foldl (addEntry selectors) acc).statsKeys ↔
      k ∈ acc.statsKeys ∨ ∃ kl ∈ elements,
        getPriority kl.1 selectors ≠ Priority.skip ∧ k = kl.1 ∧ kl.2 ≠ [] := by
  induction elements generalizing acc with
  | nil => simp
  | cons kl els ih =>
    rw [List.foldl_cons, ih, addEntry_mem_statsKeys]
    simp only [List.mem_cons]
    constructor
    · rintro ((h | h) | ⟨kl', hkl', h⟩)
      · exact Or.inl h
      · exact Or.inr ⟨kl, Or.inl rfl, h⟩
      · exact Or.inr ⟨kl', Or.inr hkl', h⟩
    · rintro (h | ⟨kl', (hkl' | hkl'), h⟩)
      · exact Or.inl (Or.inl h)
      · exact Or.inl (Or.inr (hkl' ▸ h))
      · exact Or.inr ⟨kl', hkl', h⟩

end IterativeRefinement

/-- Claim C5: categorization assigns every element to exactly one tier —
each tier list only holds items tagged with that tier (so the three lists
are mutually exclusive), every non-skip element lands in the list of its
key's priority, and a skip-classified key contributes no item to any list
and receives no stats entry. -/
theorem C5_tier_exclusivity (α S : Type) (elements : List (String × List α))
    (selectors : S) (stats0 : List String) :
    ((∀ it ∈ (IterativeRefinement.categorizeElements elements selectors
        stats0).high, it.priority = IterativeRefinement.Priority.high) ∧
     (∀ it ∈ (IterativeRefinement.categorizeElements elements selectors
        stats0).medium, it.priority = IterativeRefinement.Priority.medium) ∧
     (∀ it ∈ (IterativeRefinement.categorizeElements elements selectors
        stats0).low, it.priority = IterativeRefinement.Priority.low) ∧
     (∀ it : IterativeRefinement.Item α,
       ¬(it ∈ (IterativeRefinement.categorizeElements elements selectors
            stats0).high ∧
         it ∈ (IterativeRefinement.categorizeElements elements selectors
            stats0).medium) ∧
       ¬(it ∈ (IterativeRefinement.categorizeElements elements selectors
            stats0).high ∧
         it ∈ (IterativeRefinement.categorizeElements elements selectors
            stats0).low) ∧
       ¬(it ∈ (IterativeRefinement.categorizeElements elements selectors
            stats0).medium ∧
         it ∈ (IterativeRefinement.categorizeElements elements selectors
            stats0).low))) ∧
    (∀ kl ∈ elements, ∀ e ∈ kl.2,
      (IterativeRefinement.getPriority kl.1 selectors =
          IterativeRefinement.Priority.high →
        (⟨e, kl.1, IterativeRefinement.Priority.high⟩ :
            IterativeRefinement.Item α) ∈
          (IterativeRefinement.categorizeElements elements selectors
            stats0).high) ∧
      (IterativeRefinement.getPriority kl.1 selectors =
          IterativeRefinement.Priority.medium →
        (⟨e, kl.1, IterativeRefinement.Priority.medium⟩ :
            IterativeRefinement.Item α) ∈
          (IterativeRefinement.categorizeElements elements selectors
            stats0).medium) ∧
      (IterativeRefinement.getPriority kl.1 selectors =
          IterativeRefinement.Priority.low →
        (⟨e, kl.1, IterativeRefinement.Priority.low⟩ :
            IterativeRefinement.Item α) ∈
          (IterativeRefinement.categorizeElements elements selectors
            stats0).low)) ∧
    (∀ key : String, IterativeRefinement.getPriority key selectors =
        IterativeRefinement.Priority.skip →
      (∀ (e : α) (p : IterativeRefinement.Priority),
        (⟨e, key, p⟩ : IterativeRefinement.Item α) ∉
            (IterativeRefinement.categorizeElements elements selectors
              stats0).high ∧
        (⟨e, key, p⟩ : IterativeRefinement.Item α) ∉
            (IterativeRefinement.categorizeElements elements selectors
              stats0).medium ∧
        (⟨e, key, p⟩ : IterativeRefinement.Item α) ∉
            (IterativeRefinement.categorizeElements elements selectors
              stats0).low) ∧
      (key ∉ stats0 →
        key ∉ (IterativeRefinement.categorizeElements elements selectors
          stats0).statsKeys)) := by
  have hhigh : ∀ it : IterativeRefinement.Item α,
      it ∈ (IterativeRefinement.categorizeElements elements selectors
        stats0).high ↔ ∃ kl ∈ elements,
        IterativeRefinement.getPriority kl.1 selectors =
          IterativeRefinement.Priority.high ∧
        ∃ e ∈ kl.2, it = ⟨e, kl.1, IterativeRefinement.Priority.high⟩ := by
    intro it
    rw [IterativeRefinement.categorizeElements,
      IterativeRefinement.categorize_mem_high]
    simp
  have hmedium : ∀ it : IterativeRefinement.Item α,
      it ∈ (IterativeRefinement.categorizeElements elements selectors
        stats0).medium ↔ ∃ kl ∈ elements,
        IterativeRefinement.getPriority kl.1 selectors =
          IterativeRefinement.Priority.medium ∧
        ∃ e ∈ kl.2, it = ⟨e, kl.1, IterativeRefinement.Priority.medium⟩ := by
    intro it
    rw [IterativeRefinement.categorizeElements,
      IterativeRefinement.categorize_mem_medium]
    simp
  have hlow : ∀ it : IterativeRefinement.Item α,
      it ∈ (IterativeRefinement.categorizeElements elements selectors
        stats0).low ↔ ∃ kl ∈ elements,
        IterativeRefinement.getPriority kl.1 selectors =
          IterativeRefinement.Priority.low ∧
        ∃ e ∈ kl.2, it = ⟨e, kl.1, IterativeRefinement.Priority.low⟩ := by
    intro it
    rw [IterativeRefinement.categorizeElements,
      IterativeRefinement.categorize_mem_low]
    simp
  have hstats : ∀ k : String,
      k ∈ (IterativeRefinement.categorizeElements elements selectors
        stats0).statsKeys ↔ k ∈ stats0 ∨ ∃ kl ∈ elements,
        IterativeRefinement.getPriority kl.1 selectors ≠
          IterativeRefinement.Priority.skip ∧ k = kl.1 ∧ kl.2 ≠ [] := by
    intro k
    rw [IterativeRefinement.categorizeElements,
      IterativeRefinement.categorize_mem_statsKeys]
  have htagH : ∀ it ∈ (IterativeRefinement.categorizeElements elements
      selectors stats0).high,
      it.priority = IterativeRefinement.Priority.high := by
    intro it hit
    obtain ⟨kl, _, _, e, _, heq⟩ := (hhigh it).mp hit
    rw [heq]
  have htagM : ∀ it ∈ (IterativeRefinement.categorizeElements elements
      selectors stats0).medium,
      it.priority = IterativeRefinement.Priority.medium := by
    intro it hit
    obtain ⟨kl, _, _, e, _, heq⟩ := (hmedium it).mp hit
    rw [heq]
  have htagL : ∀ it ∈ (IterativeRefinement.categorizeElements elements
      selectors stats0).low,
      it.priority = IterativeRefinement.Priority.low := by
    intro it hit
    obtain ⟨kl, _, _, e, _, heq⟩ := (hlow it).mp hit
    rw [heq]
  refine ⟨⟨htagH, htagM, htagL, ?_⟩, ?_, ?_⟩
  · intro it
    refine ⟨fun ⟨h1, h2⟩ => ?_, fun ⟨h1, h2⟩ => ?_, fun ⟨h1, h2⟩ => ?_⟩
    · have := htagH it h1
      have := htagM it h2
      simp_all
    · have := htagH it h1
      have := htagL it h2
      simp_all
    · have := htagM it h1
      have := htagL it h2
      simp_all
  · intro kl hkl e he
    refine ⟨fun hp => ?_, fun hp => ?_, fun hp => ?_⟩
    · exact (hhigh _).mpr ⟨kl, hkl, hp, e, he, rfl⟩
    · exact (hmedium _).mpr ⟨kl, hkl, hp, e, he, rfl⟩
    · exact (hlow _).mpr ⟨kl, hkl, hp, e, he, rfl⟩
  · intro key hskip
    refine ⟨fun e p => ⟨fun hmem => ?_, fun hmem => ?_, fun hmem => ?_⟩,
      fun hkey0 hmem => ?_⟩
    · obtain ⟨kl, _, hp, e', _, heq⟩ := (hhigh _).mp hmem
      cases heq
      rw [hskip] at hp
      exact absurd hp (by simp)
    · obtain ⟨kl, _, hp, e', _, heq⟩ := (hmedium _).mp hmem
      cases heq
      rw [hskip] at hp
      exact absurd hp (by simp)
    · obtain ⟨kl, _, hp, e', _, heq⟩ := (hlow _).mp hmem
      cases heq
      rw [hskip] at hp
      exact absurd hp (by simp)
    · rcases (hstats key).mp hmem with h | ⟨kl, _, hp, hkkl, _⟩
      · exact hkey0 h
      · rw [← hkkl] at hp
        exact hp hskip

/-- Witness for C5 on a concrete discovery map: a high key, a skip key and
an unlisted (low) key, each with one element. -/
theorem C5_tier_exclusivity_witness :
    (⟨1, "chartLabels", IterativeRefinement.Priority.high⟩ :
        IterativeRefinement.Item ℕ) ∈
      (IterativeRefinement.categorizeElements
        [("chartLabels", [1]), ("container", [2]), ("scoreRings", [3])]
        (0 : ℕ) []).high ∧
    (⟨3, "scoreRings", IterativeRefinement.Priority.low⟩ :
        IterativeRefinement.Item ℕ) ∈
      (IterativeRefinement.categorizeElements
        [("chartLabels", [1]), ("container", [2]), ("scoreRings", [3])]
        (0 : ℕ) []).low ∧
    (⟨2, "container", IterativeRefinement.Priority.skip⟩ :
        IterativeRefinement.Item ℕ) ∉
      (IterativeRefinement.categorizeElements
        [("chartLabels", [1]), ("container", [2]), ("scoreRings", [3])]
        (0 : ℕ) []).low ∧
    "container" ∉
      (IterativeRefinement.categorizeElements
        [("chartLabels", [1]), ("container", [2]), ("scoreRings", [3])]
        (0 : ℕ) []).statsKeys := by
  have h := C5_tier_exclusivity ℕ ℕ
    [("chartLabels", [1]), ("container", [2]), ("scoreRings", [3])] 0 []
  refine ⟨?_, ?_, ?_, ?_⟩
  · exact ((h.2.1 ("chartLabels", [1]) (by simp) 1 (by simp)).1 (by decide))
  · exact ((h.2.1 ("scoreRings", [3]) (by simp) 3 (by simp)).2.2 (by decide))
  · exact ((h.2.2 "container" (by decide)).1 2
      IterativeRefinement.Priority.skip).2.2
  · exact (h.2.2 "container" (by decide)).2 (by simp)
